import Mathlib

/-!
Shallow embedding of the subprocess execution harness and retry wrapper in
`src/utilities/utils.py` of the `coldint_validator` repository.

The embedding models:
- `_wrapped_func` (the child entry point, lines 67-89): raises the file
  descriptor limit, optionally installs a queue log handler, runs the unit of
  work and writes a result envelope (a 1-tuple on success, a 2-tuple on a
  caught exception) to the queue.
- `run_in_subprocess` (lines 92-157): joins the child with a timeout,
  terminates on overrun, reads the envelope non-blockingly and interprets it.
- `run_with_retry` (lines 241-263): constant-backoff retry loop.

Python values crossing the queue are modelled by `PyVal`; raised Python
exceptions by `PyExc` (a kind, i.e. the type name `type(e).__name__`, and a
message, i.e. `str(e)`).  The textual rendering of non-exception values inside
diagnostic messages (`pyTypeStr`, `strOf`) abstracts Python `type(x)` / `str(x)`
to short tags; the claims only depend on which message is produced, not on the
exact rendering of embedded values.  Real time, actual OS processes and the log
forwarding listener thread are not modelled; the observable effects of a call
(its outcome, the error-severity log lines it emits, and the sequence of
process/queue operations it performs) are.
-/

namespace ColdintUtils

/-- A Python value as it can appear on the result queue or be returned by a
unit of work: a plain value (abstracted as a natural number or a string), an
ordinary `Exception` instance, or a `BaseException` instance that is not an
`Exception` (e.g. `KeyboardInterrupt`, `SystemExit`).  Exception instances
carry their type name (`type(e).__name__`) and message (`str(e)`). -/
inductive PyVal where
  | nat (n : Nat)
  | str (s : String)
  | exc (kind msg : String)
  | baseExc (kind msg : String)
  deriving Repr, DecidableEq

/-- An item read from the child's result queue.  `queue.get` can in principle
yield any Python object; `run_in_subprocess` line 145 guards with
`isinstance(result, tuple)`, so the model splits items into tuples (of any
arity) and non-tuples. -/
inductive QueueItem where
  | tup (elems : List PyVal)
  | nonTuple (v : PyVal)
  deriving Repr, DecidableEq

/-- A raised Python exception as seen by the caller: its type name and its
message. -/
structure PyExc where
  kind : String
  msg : String
  deriving Repr, DecidableEq

instance {ε α : Type} [DecidableEq ε] [DecidableEq α] : DecidableEq (Except ε α) := fun a b =>
  match a, b with
  | .ok x, .ok y =>
      if h : x = y then isTrue (by rw [h]) else isFalse (by intro hh; cases hh; exact h rfl)
  | .error x, .error y =>
      if h : x = y then isTrue (by rw [h]) else isFalse (by intro hh; cases hh; exact h rfl)
  | .ok _, .error _ => isFalse (by intro hh; cases hh)
  | .error _, .ok _ => isFalse (by intro hh; cases hh)

/-- `isinstance(v, Exception)`: true exactly for ordinary exception instances. -/
def isExceptionInst : PyVal → Bool
  | .exc _ _ => true
  | _ => false

/-- `isinstance(v, BaseException)`: true for ordinary exceptions and for
base-exception-only instances. -/
def isBaseExceptionInst : PyVal → Bool
  | .exc _ _ => true
  | .baseExc _ _ => true
  | _ => false

/-- `type(v).__name__` for exception instances (empty for plain values, which
never reach the name lookup in the source). -/
def excKind : PyVal → String
  | .exc k _ => k
  | .baseExc k _ => k
  | _ => ""

/-- Python `str(v)`, abstracted: for exception instances it is the message;
plain values render to a short tag. -/
def strOf : PyVal → String
  | .nat n => toString n
  | .str s => s
  | .exc _ m => m
  | .baseExc _ m => m

/-- Python `type(v)`, abstracted to a short type tag. -/
def pyTypeStr : PyVal → String
  | .nat _ => "int"
  | .str _ => "str"
  | .exc k _ => k
  | .baseExc k _ => k

/-- The exception object raised by `raise result[0]`: the original kind and
message survive unchanged. -/
def asRaised : PyVal → PyExc
  | .exc k m => ⟨k, m⟩
  | .baseExc k m => ⟨k, m⟩
  | v => ⟨"TypeError", strOf v⟩

/-- The `IndexError` Python raises for an out-of-range tuple subscript, as
happens at `result[1]` when the envelope tuple is too short. -/
def indexError : PyExc := ⟨"IndexError", "tuple index out of range"⟩

/-- `traceback.format_exc()` as called in `_wrapped_func` line 88, abstracted
to a rendering determined by the exception's kind and message. -/
def formatTrace (kind msg : String) : String :=
  "Traceback (most recent call last): " ++ kind ++ ": " ++ msg

/-- The behaviour of one execution of the unit of work `func()` inside the
child: it returns a value, raises an ordinary `Exception`, or raises a
`BaseException` that is not an `Exception`. -/
inductive WorkBehavior where
  | returns (v : PyVal)
  | raisesExc (kind msg : String)
  | raisesBase (kind msg : String)
  deriving Repr, DecidableEq

/-- The observable result of one run of the child entry point `_wrapped_func`:
the envelope written to the result queue (`none` when the child died without
writing one) and the lines printed by the non-fatal logging-setup handler. -/
structure ChildRun where
  envelope : Option QueueItem
  printed : List String
  deriving Repr, DecidableEq

/-- `_wrapped_func(func, log_queue, queue)` (lines 67-89).

`setrlimitOk` models whether `resource.setrlimit(resource.RLIMIT_NOFILE,
(65000, 65000))` at line 68 succeeds.  That call stands BEFORE the `try`
block, so when it raises the exception is uncaught: the child dies without
writing any envelope and without printing anything.

Inside the `try` block: when a log queue is present, a failure to install the
queue handler (`logSetupErr = some e`) is caught at line 82 and only printed.
Then `func()` runs; a normal return `v` is written as the 1-tuple `(v,)`
(line 85), and any raised exception `e` — the `except (Exception,
BaseException)` clause at line 86 catches every `BaseException` — is written
as the 2-tuple `(e, traceback.format_exc())` (line 89). -/
def wrapped_func (setrlimitOk : Bool) (logQueuePresent : Bool)
    (logSetupErr : Option String) (work : WorkBehavior) : ChildRun :=
  if setrlimitOk = false then
    { envelope := none, printed := [] }
  else
    let printed :=
      if logQueuePresent then
        match logSetupErr with
        | some e => ["Non-fatal: exception trying to implement proper logging: " ++ e]
        | none => []
      else []
    match work with
    | .returns v =>
        { envelope := some (.tup [v]), printed := printed }
    | .raisesExc k m =>
        { envelope := some (.tup [.exc k m, .str (formatTrace k m)]), printed := printed }
    | .raisesBase k m =>
        { envelope := some (.tup [.baseExc k m, .str (formatTrace k m)]), printed := printed }

/-- The diagnostic identity of the `functools.partial`: `func.func.__name__`,
and the renderings of `func.args` and `func.keywords` used in messages. -/
structure FuncInfo where
  name : String
  argsStr : String
  kwargsStr : String
  deriving Repr, DecidableEq

/-- Result interpretation, `run_in_subprocess` lines 145-157, applied to the
item read from the queue.  Returns the outcome (`ok` for `return result[0]`,
`error` for a `raise`) paired with the list of messages logged at error
severity via `bt.logging.error`.

Order matters and is kept from the source: when `result[0]` is an ordinary
exception whose kind is not in `expected_errors`, the log line interpolates
`result[1]` BEFORE `raise result[0]` runs, so a 1-tuple fails there with
`IndexError`; when the kind is in `expected_errors` the log line is skipped
and `result[0]` is raised directly.  The `isinstance(result, tuple)` guard
(line 145) rejects only non-tuples; an empty tuple fails at `result[0]` with
`IndexError`, and a longer tuple is interpreted by its first element. -/
def interpretResult (result : QueueItem) (expected : List String) :
    Except PyExc PyVal × List String :=
  match result with
  | .nonTuple v =>
      (.error ⟨"Exception",
        "Unexpected result from subprocess, type " ++ pyTypeStr v ++ ": " ++ strOf v⟩, [])
  | .tup elems =>
      match elems.get? 0 with
      | none => (.error indexError, [])
      | some e0 =>
          if isExceptionInst e0 then
            if expected.contains (excKind e0) then
              (.error (asRaised e0), [])
            else
              match elems.get? 1 with
              | none => (.error indexError, [])
              | some e1 =>
                  (.error (asRaised e0), ["Exception in subprocess:\n" ++ strOf e1])
          else if isBaseExceptionInst e0 then
            match elems.get? 1 with
            | none => (.error indexError, [])
            | some e1 =>
                (.error ⟨"Exception", "BaseException raised in subprocess: " ++ strOf e0⟩,
                 ["BaseException in subprocess:\n" ++ strOf e1])
          else
            (.ok e0, [])

/-- One process/queue operation performed by the parent in
`run_in_subprocess`, in source order: `process.start()` (line 123),
`process.join(timeout=ttl)` (line 125), `process.terminate()` (line 135),
the unbounded `process.join()` (line 136), and `queue.get(block=False)`
(line 141). -/
inductive ParentAction where
  | processStart
  | joinWithTimeout (ttl : Nat)
  | terminate
  | joinUnbounded
  | queueGetNonblocking
  deriving Repr, DecidableEq

/-- What the environment did to the child during `process.join(timeout=ttl)`:
either the child was still alive when the join returned (`process.is_alive()`
true at line 134), or it exited in time and the subsequent non-blocking queue
read either fails (`exitedQueueEmpty`, carrying `str(e)` of the raised read
error) or yields an item. -/
inductive ChildFate where
  | aliveAfterTtl
  | exitedQueueEmpty (readErr : String)
  | exitedWithItem (item : QueueItem)
  deriving Repr, DecidableEq

/-- The observable result of one parent-side `run_in_subprocess` call: the
outcome (returned value or raised exception), the error-severity log lines,
and the ordered process/queue operations performed. -/
structure RunResult where
  outcome : Except PyExc PyVal
  errorLogs : List String
  actions : List ParentAction
  deriving Repr, DecidableEq

/-- `run_in_subprocess(func, ttl, mode, expected_errors)` (lines 92-157) in
the default fork mode (no log forwarding bridge), given the child's fate.

Timeout path (lines 134-137): `terminate()`, an unbounded `join()`, then
`raise TimeoutError(f"Failed to {name} after {ttl} seconds")`; the queue is
never read.  Exited child (lines 140-143): a failing non-blocking read
raises `Exception` naming the work, its bound arguments and the read error;
a successful read hands the item to the interpretation block. -/
def run_in_subprocess (fi : FuncInfo) (ttl : Nat) (fate : ChildFate)
    (expected : List String) : RunResult :=
  match fate with
  | .aliveAfterTtl =>
      { outcome := .error ⟨"TimeoutError",
          "Failed to " ++ fi.name ++ " after " ++ toString ttl ++ " seconds"⟩,
        errorLogs := [],
        actions := [.processStart, .joinWithTimeout ttl, .terminate, .joinUnbounded] }
  | .exitedQueueEmpty readErr =>
      { outcome := .error ⟨"Exception",
          "Failed to get result from subprocess " ++ fi.name ++ "(*args=" ++ fi.argsStr
            ++ ",**kwargs=" ++ fi.kwargsStr ++ "): " ++ readErr⟩,
        errorLogs := [],
        actions := [.processStart, .joinWithTimeout ttl, .queueGetNonblocking] }
  | .exitedWithItem item =>
      let r := interpretResult item expected
      { outcome := r.1,
        errorLogs := r.2,
        actions := [.processStart, .joinWithTimeout ttl, .queueGetNonblocking] }

/-- The composed pipeline for a child that finishes before the deadline: the
child runs `_wrapped_func` (fork mode: no log queue), and the parent then
reads whatever the child left on the queue.  A child that died without
writing an envelope surfaces as an empty-queue read (the `queue.Empty`
exception renders to the empty string). -/
def run_work_in_subprocess (fi : FuncInfo) (ttl : Nat) (setrlimitOk : Bool)
    (work : WorkBehavior) (expected : List String) : RunResult :=
  match (wrapped_func setrlimitOk false none work).envelope with
  | some env => run_in_subprocess fi ttl (.exitedWithItem env) expected
  | none => run_in_subprocess fi ttl (.exitedQueueEmpty "") expected

/-- The behaviour of one invocation of the retried function `func()` at a
given attempt number: return a value, raise an ordinary `Exception` (caught
by the `except Exception` clause at line 257), or raise a `BaseException`
that is not an `Exception` (not caught: it propagates immediately). -/
inductive CallResult where
  | ok (v : PyVal)
  | raisesExc (e : PyExc)
  | raisesBase (e : PyExc)
  deriving Repr, DecidableEq

/-- The observable result of `run_with_retry`: the outcome, the number of
invocations of `func`, and the number of `time.sleep(delay_seconds)` calls
performed (each sleeping the constant `delay_seconds`). -/
structure RetryResult where
  outcome : Except PyExc PyVal
  calls : Nat
  sleeps : Nat
  deriving Repr, DecidableEq

/-- The `raise Exception(...)` at line 263, reached only when the loop body
never runs.  The contraction in the source message is expanded here; the
claims depend only on which error is raised, not on its exact text. -/
def unexpectedStateExc : PyExc :=
  ⟨"Exception", "Unexpected state: Ran with retry but did not hit a terminal state"⟩

/-- The loop `for attempt in range(1, max_retries + 1)` (lines 254-262),
unrolled over the number of remaining attempts.  `attempt` is the current
attempt number; the current attempt is the last one (`attempt == max_retries`)
exactly when no further attempts remain. -/
def retryGo (f : Nat → CallResult) (attempt : Nat) : Nat → RetryResult
  | 0 => { outcome := .error unexpectedStateExc, calls := 0, sleeps := 0 }
  | remaining + 1 =>
      match f attempt with
      | .ok v => { outcome := .ok v, calls := 1, sleeps := 0 }
      | .raisesBase e => { outcome := .error e, calls := 1, sleeps := 0 }
      | .raisesExc e =>
          if remaining = 0 then
            { outcome := .error e, calls := 1, sleeps := 0 }
          else
            let rest := retryGo f (attempt + 1) remaining
            { outcome := rest.outcome, calls := rest.calls + 1, sleeps := rest.sleeps + 1 }

/-- `run_with_retry(func, max_retries, delay_seconds, ...)` (lines 241-263).
`max_retries` is an integer; `range(1, max_retries + 1)` is empty whenever
`max_retries <= 0`, which `Int.toNat` captures. -/
def run_with_retry (f : Nat → CallResult) (max_retries : Int)
    (delay_seconds : Nat) : RetryResult :=
  retryGo f 1 max_retries.toNat

/-- A concrete diagnostic identity used by witnesses and counterexamples. -/
def fi0 : FuncInfo := ⟨"download_model", "(1, 2)", "\x7b\x7d"⟩

/-- Whether an outcome is a returned value (as opposed to a raised
exception). -/
def isSuccess : Except PyExc PyVal → Bool
  | .ok _ => true
  | .error _ => false

/-- A concrete retried function for witnesses: fails on attempt 1, succeeds
on every later attempt. -/
def fW : Nat → CallResult :=
  fun j => if j = 1 then .raisesExc ⟨"ValueError", "a1"⟩ else .ok (.nat 3)

/-- A concrete retried function for witnesses: fails on every attempt, with a
message naming the attempt. -/
def gW : Nat → CallResult :=
  fun j => .raisesExc ⟨"E", "a" ++ toString j⟩

/-- The per-attempt errors of `fW` (relevant only at attempt 1). -/
def errW : Nat → PyExc := fun j => ⟨"ValueError", "a" ++ toString j⟩

/-- The per-attempt errors of `gW`. -/
def errG : Nat → PyExc := fun j => ⟨"E", "a" ++ toString j⟩

/-- Claim C1 (amended): for every unit of work that completes within `ttl`
seconds and returns a value `v` that is not an exception instance,
`run_in_subprocess` returns exactly `v` to the caller — the identity
round-trip through the one-element envelope tuple.  (For exception-valued
returns the interpretation block raises instead; see the C9 theorems.) -/
theorem run_in_subprocess_returns_plain_value (fi : FuncInfo) (ttl : Nat)
    (v : PyVal) (expected : List String) (h : isBaseExceptionInst v = false) :
    (run_work_in_subprocess fi ttl true (.returns v) expected).outcome = .ok v := by
  cases v <;>
    simp_all [run_work_in_subprocess, wrapped_func, run_in_subprocess,
      interpretResult, isExceptionInst, isBaseExceptionInst]

/-- Witness for C1 at the value `7`. -/
theorem run_in_subprocess_returns_plain_value_witness :
    isBaseExceptionInst (.nat 7) = false
    ∧ (run_work_in_subprocess fi0 5 true (.returns (.nat 7)) []).outcome = .ok (.nat 7) :=
  ⟨by decide, run_in_subprocess_returns_plain_value fi0 5 (.nat 7) [] (by decide)⟩

/-- Counterexample to C1 as stated: a unit of work that returns the value
`ValueError("boom")` (an exception instance) does not get it returned —
with the default empty `expected_errors`, the interpretation block evaluates
`result[1]` on the one-element envelope while formatting the error log and
raises `IndexError` instead. -/
theorem run_in_subprocess_value_roundtrip_fails_on_exception_value :
    (run_work_in_subprocess fi0 5 true (.returns (.exc "ValueError" "boom")) []).outcome
      = .error indexError
    ∧ (run_work_in_subprocess fi0 5 true (.returns (.exc "ValueError" "boom")) []).outcome
      ≠ .ok (.exc "ValueError" "boom") := by
  decide

/-- Claim C2: when the child is still alive after `ttl` seconds, the parent
terminates it, joins without bound, and raises `TimeoutError` whose message
names the unit of work and the configured ttl; the envelope queue is never
read on this path (no `queue.get` action is performed, and the result does
not depend on any queue contents). -/
theorem run_in_subprocess_timeout_kills_and_raises (fi : FuncInfo) (ttl : Nat)
    (expected : List String) :
    (run_in_subprocess fi ttl .aliveAfterTtl expected).outcome
      = .error ⟨"TimeoutError",
          "Failed to " ++ fi.name ++ " after " ++ toString ttl ++ " seconds"⟩
    ∧ (run_in_subprocess fi ttl .aliveAfterTtl expected).actions
      = [.processStart, .joinWithTimeout ttl, .terminate, .joinUnbounded]
    ∧ ((run_in_subprocess fi ttl .aliveAfterTtl expected).actions.contains
        ParentAction.queueGetNonblocking) = false := by
  refine ⟨rfl, rfl, ?_⟩
  rfl

/-- Claim C3: a unit of work that raises an ordinary `Exception` of kind `K`
with message `m` has that same error re-raised to the caller (kind and
message preserved), whether or not `K` is in `expected_errors`; its stack
trace is logged at error severity exactly when `K` is not in
`expected_errors`. -/
theorem run_in_subprocess_reraises_ordinary_error (fi : FuncInfo) (ttl : Nat)
    (k m : String) (expected : List String) :
    (run_work_in_subprocess fi ttl true (.raisesExc k m) expected).outcome = .error ⟨k, m⟩
    ∧ (run_work_in_subprocess fi ttl true (.raisesExc k m) expected).errorLogs
      = (if expected.contains k then []
         else ["Exception in subprocess:\n" ++ formatTrace k m]) := by
  by_cases hc : expected.contains k = true <;>
    simp_all [run_work_in_subprocess, wrapped_func, run_in_subprocess,
      interpretResult, isExceptionInst, excKind, asRaised, strOf]

/-- Claim C5 (amended): when raising the file-descriptor limit at child
startup fails, the failure is fatal and unlogged — `resource.setrlimit`
stands before the `try` block, so the exception propagates uncaught, the
unit of work never runs, no envelope is written and nothing is printed; the
parent then surfaces the missing envelope as the internal-state read error,
never as success. -/
theorem wrapped_func_setrlimit_failure_kills_child (work : WorkBehavior)
    (logQ : Bool) (ls : Option String) (fi : FuncInfo) (ttl : Nat)
    (expected : List String) :
    (wrapped_func false logQ ls work).envelope = none
    ∧ (wrapped_func false logQ ls work).printed = []
    ∧ (run_work_in_subprocess fi ttl false work expected).outcome
      = .error ⟨"Exception",
          "Failed to get result from subprocess " ++ fi.name ++ "(*args="
            ++ fi.argsStr ++ ",**kwargs=" ++ fi.kwargsStr ++ "): "⟩ := by
  refine ⟨rfl, rfl, ?_⟩
  cases work <;> simp [run_work_in_subprocess, wrapped_func, run_in_subprocess]

/-- Counterexample to C5 as stated: with a failing `setrlimit`, a unit of
work that would return `0` leaves no envelope on the queue and prints
nothing — the failure is neither non-fatal nor logged, and the work's
envelope is never written. -/
theorem wrapped_func_setrlimit_failure_counterexample :
    (wrapped_func false false none (.returns (.nat 0))).envelope = none
    ∧ (wrapped_func false false none (.returns (.nat 0))).printed = [] := by
  decide

/-- Claim C6 (amended): the interpretation block rejects any queue item that
is not a tuple with the generic unexpected-result-shape error; it does not
reject tuples of unrecognized arity (an empty tuple fails later at
`result[0]` with `IndexError`, and a tuple of three or more elements is
interpreted by its first element). -/
theorem interpretResult_rejects_non_tuple (v : PyVal) (expected : List String) :
    interpretResult (.nonTuple v) expected
      = (.error ⟨"Exception",
          "Unexpected result from subprocess, type " ++ pyTypeStr v ++ ": " ++ strOf v⟩,
         []) := by
  rfl

/-- Counterexample to C6 as stated: the three-element tuple `(1, 2, 3)` is
not one of the two recognized envelope variants, yet the interpretation
block does not fail with the unexpected-result-shape error — it returns the
first element as a success. -/
theorem interpretResult_unrecognized_tuple_not_rejected :
    interpretResult (.tup [.nat 1, .nat 2, .nat 3]) [] = (Except.ok (.nat 1), []) := by
  decide

/-- Claim C7: when the child exits within the deadline but the non-blocking
queue read fails, `run_in_subprocess` raises an internal-state error whose
message names the unit of work, its bound positional and keyword arguments,
and the underlying read failure; the outcome is never a returned value. -/
theorem run_in_subprocess_missing_envelope_error (fi : FuncInfo) (ttl : Nat)
    (readErr : String) (expected : List String) :
    (run_in_subprocess fi ttl (.exitedQueueEmpty readErr) expected).outcome
      = .error ⟨"Exception",
          "Failed to get result from subprocess " ++ fi.name ++ "(*args="
            ++ fi.argsStr ++ ",**kwargs=" ++ fi.kwargsStr ++ "): " ++ readErr⟩
    ∧ isSuccess (run_in_subprocess fi ttl (.exitedQueueEmpty readErr) expected).outcome
      = false := by
  refine ⟨rfl, rfl⟩

/-- Claim C8: a unit of work that raises a `BaseException` that is not an
ordinary `Exception` always has its trace logged at error severity —
regardless of `expected_errors` — and the caller receives a generic
`Exception` wrapper carrying the original error's textual description
(`str(e)`, here the message `m`), not the original kind `k`. -/
theorem run_in_subprocess_wraps_base_exception (fi : FuncInfo) (ttl : Nat)
    (k m : String) (expected : List String) :
    (run_work_in_subprocess fi ttl true (.raisesBase k m) expected).outcome
      = .error ⟨"Exception", "BaseException raised in subprocess: " ++ m⟩
    ∧ (run_work_in_subprocess fi ttl true (.raisesBase k m) expected).errorLogs
      = ["BaseException in subprocess:\n" ++ formatTrace k m] := by
  refine ⟨rfl, rfl⟩

/-- Claim C9 (amended): a unit of work that returns an exception instance
never has it returned as a value — the one-element Success envelope is
routed through the failure branch.  If the instance's kind is in
`expected_errors` the instance itself is raised; otherwise the error-log
f-string evaluates `result[1]` on the one-element tuple first and the call
raises `IndexError`. -/
theorem run_in_subprocess_returned_exception_never_returned (fi : FuncInfo)
    (ttl : Nat) (k m : String) (expected : List String) :
    (run_work_in_subprocess fi ttl true (.returns (.exc k m)) expected).outcome
      = (if expected.contains k then Except.error ⟨k, m⟩ else Except.error indexError)
    ∧ isSuccess (run_work_in_subprocess fi ttl true (.returns (.exc k m)) expected).outcome
      = false := by
  by_cases hc : expected.contains k = true <;>
    simp_all [run_work_in_subprocess, wrapped_func, run_in_subprocess,
      interpretResult, isExceptionInst, excKind, asRaised, isSuccess]

/-- Counterexample to C9 as stated: a unit of work that returns the value
`ValueError("boom")` with the default empty `expected_errors` does not get
that value raised — the call raises `IndexError` (from `result[1]` on the
one-element envelope) instead. -/
theorem run_in_subprocess_returned_exception_not_raised_as_is :
    (run_work_in_subprocess fi0 5 true (.returns (.exc "ValueError" "boom")) []).outcome
      = .error indexError
    ∧ (run_work_in_subprocess fi0 5 true (.returns (.exc "ValueError" "boom")) []).outcome
      ≠ .error ⟨"ValueError", "boom"⟩ := by
  decide

/-- Loop invariant for success: if the first `i` attempts starting at
`attempt` raise ordinary exceptions and attempt `attempt + i` succeeds with
`v` while attempts remain, the loop returns `v` after `i + 1` invocations
and `i` sleeps. -/
theorem retryGo_success (f : Nat → CallResult) (err : Nat → PyExc) (v : PyVal) :
    ∀ (i att rem : Nat), i < rem →
      (∀ j, j < i → f (att + j) = .raisesExc (err (att + j))) →
      f (att + i) = .ok v →
      retryGo f att rem = ⟨.ok v, i + 1, i⟩ := by
  intro i
  induction i with
  | zero =>
      intro att rem hrem hfail hok
      match rem, hrem with
      | r + 1, _ =>
        simp only [Nat.add_zero] at hok
        simp [retryGo, hok]
  | succ i ih =>
      intro att rem hrem hfail hok
      match rem, hrem with
      | r + 1, _ =>
        have hr : i < r := by omega
        have hf0 : f att = .raisesExc (err att) := by
          have := hfail 0 (by omega)
          simpa using this
        have hrne : ¬ r = 0 := by omega
        have hrest : retryGo f (att + 1) r = ⟨.ok v, i + 1, i⟩ := by
          apply ih (att + 1) r hr
          · intro j hj
            have := hfail (j + 1) (by omega)
            have hadd : att + (j + 1) = att + 1 + j := by omega
            rw [hadd] at this
            exact this
          · have hadd : att + (i + 1) = att + 1 + i := by omega
            rw [hadd] at hok
            exact hok
        simp [retryGo, hf0, hrne, hrest]

/-- Loop invariant for exhaustion: if every one of the `rem > 0` attempts
starting at `attempt` raises an ordinary exception, the loop re-raises the
error of the last attempt after `rem` invocations and `rem - 1` sleeps. -/
theorem retryGo_allfail (f : Nat → CallResult) (err : Nat → PyExc) :
    ∀ (rem att : Nat), 0 < rem →
      (∀ j, j < rem → f (att + j) = .raisesExc (err (att + j))) →
      retryGo f att rem = ⟨.error (err (att + (rem - 1))), rem, rem - 1⟩ := by
  intro rem
  induction rem with
  | zero => intro att h; omega
  | succ r ih =>
      intro att _ hfail
      have hf0 : f att = .raisesExc (err att) := by
        have := hfail 0 (by omega)
        simpa using this
      by_cases hr0 : r = 0
      · subst hr0
        simp [retryGo, hf0]
      · have hrest := ih (att + 1) (by omega) (fun j hj => by
          have := hfail (j + 1) (by omega)
          have hadd : att + (j + 1) = att + 1 + j := by omega
          rw [hadd] at this
          exact this)
        have h1 : att + 1 + (r - 1) = att + r := by omega
        rw [h1] at hrest
        have h2 : r - 1 + 1 = r := by omega
        simp [retryGo, hf0, hr0, hrest, h2]

/-- Claim C4: `run_with_retry` numbers its attempts 1 through `max_retries`.
When the first `k - 1` attempts raise ordinary errors and attempt
`k <= max_retries` succeeds with `v`, the call returns `v` after exactly `k`
invocations and `k - 1` constant-delay waits (none after the success).  When
all `max_retries` attempts raise ordinary errors, the call re-raises the
error of the last attempt — kind and message preserved — after exactly
`max_retries` invocations and `max_retries - 1` waits (none after the last
attempt). -/
theorem run_with_retry_attempt_behaviour (f : Nat → CallResult) (m d k : Nat)
    (v : PyVal) (err : Nat → PyExc) (hm : 0 < m) :
    ((1 ≤ k ∧ k ≤ m ∧ (∀ j, 1 ≤ j → j < k → f j = .raisesExc (err j)) ∧ f k = .ok v) →
        run_with_retry f (m : Int) d = ⟨.ok v, k, k - 1⟩)
    ∧ ((∀ j, 1 ≤ j → j ≤ m → f j = .raisesExc (err j)) →
        run_with_retry f (m : Int) d = ⟨.error (err m), m, m - 1⟩) := by
  constructor
  · rintro ⟨hk1, hkm, hfail, hok⟩
    unfold run_with_retry
    rw [Int.toNat_natCast]
    have h1 : retryGo f 1 m = ⟨.ok v, (k - 1) + 1, k - 1⟩ := by
      apply retryGo_success f err v (k - 1) 1 m (by omega)
      · intro j hj
        have := hfail (1 + j) (by omega) (by omega)
        exact this
      · have hadd : 1 + (k - 1) = k := by omega
        rw [hadd]
        exact hok
    have hk : (k - 1) + 1 = k := by omega
    rw [hk] at h1
    exact h1
  · intro hfail
    unfold run_with_retry
    rw [Int.toNat_natCast]
    have h1 := retryGo_allfail f err m 1 hm (fun j hj => by
      have := hfail (1 + j) (by omega) (by omega)
      exact this)
    have hm1 : 1 + (m - 1) = m := by omega
    rw [hm1] at h1
    exact h1

/-- Witness for C4: `fW` fails once then succeeds — two invocations, one
wait, value returned; `gW` always fails — two invocations, one wait, second
attempt's error re-raised. -/
theorem run_with_retry_attempt_behaviour_witness :
    run_with_retry fW 2 0 = ⟨.ok (.nat 3), 2, 1⟩
    ∧ run_with_retry gW 2 0 = ⟨.error (errG 2), 2, 1⟩ := by
  constructor
  · exact (run_with_retry_attempt_behaviour fW 2 0 2 (.nat 3) errW (by decide)).1
      ⟨by decide, by decide,
       fun j h1 h2 => by
         have hj : j = 1 := by omega
         subst hj
         decide,
       by decide⟩
  · exact (run_with_retry_attempt_behaviour gW 2 0 0 (.nat 0) errG (by decide)).2
      (fun j h1 h2 => by
        have hj : j = 1 ∨ j = 2 := by omega
        rcases hj with hj | hj <;> subst hj <;> decide)

/-- Claim C10: when `max_retries <= 0` the attempt loop body never runs —
the function is never invoked — and `run_with_retry` raises the generic
internal unexpected-state error, not any error from an attempt. -/
theorem run_with_retry_nonpositive (f : Nat → CallResult) (d : Nat) (m : Int)
    (h : m ≤ 0) :
    run_with_retry f m d = ⟨.error unexpectedStateExc, 0, 0⟩ := by
  unfold run_with_retry
  rw [Int.toNat_of_nonpos h]
  rfl

/-- Witness for C10 at `max_retries = 0`. -/
theorem run_with_retry_nonpositive_witness :
    run_with_retry gW 0 1 = ⟨.error unexpectedStateExc, 0, 0⟩ :=
  run_with_retry_nonpositive gW 1 0 (by decide)

end ColdintUtils
